import Mathlib

/-!
Verification development for the AI-Emotional-Buddy repository.

The repository contains two near-identical copies of a mental-health
chatbot backend: `src/main.py` and a second file (modelled here as the
`Part0` namespace).  Both define a `MentalHealthResourceGuide` class with
regex-based concern detection (`analyze_mental_health_needs`), resource
selection (`get_recommended_resources`), response composition
(`create_mental_health_response`), plus an `IntegratedMentalHealthCompanion`
with a sentiment-based `analyze_sympathy` and a response dispatcher
`generate_comprehensive_response`.

Modelling conventions:
* Every concern regex in the source is a plain alternation of literal
  substrings `(lit1|lit2|...)`; `re.search(pattern, text)` for such a
  pattern is exactly "some literal is a substring of `text`".  Substring
  search is embedded as an executable Boolean search over `List Char`.
* The urgency strings "low"/"moderate"/"high"/"immediate" of the source
  are embedded as the inductive type `Urgency`.
* Python dict access `MENTAL_HEALTH_RESOURCES[category]`, which raises
  `KeyError` on a missing key, is embedded as an `Option`-valued lookup
  (`lookupAll` returns `none` when some requested key is missing).
* `list(set(...))` produces a duplicate-free list in an unspecified
  order; it is embedded as `List.dedup`.  All proved claims about the
  bundle are order-independent (membership and duplicate freedom).
* The external TextBlob sentiment primitive is not part of the
  repository; functions that consume it take the (already rounded)
  polarity and subjectivity as explicit rational inputs.
* Python floats are embedded as `ℚ`.
-/

/-- Boolean test that `p` is a prefix of `t` (over any decidable type). -/
def listPrefix {α : Type} [DecidableEq α] : List α → List α → Bool
  | [], _ => true
  | _ :: _, [] => false
  | a :: ps, b :: ts => decide (a = b) && listPrefix ps ts

/-- Boolean test that `p` occurs as a contiguous sublist of `t`.  For a
list of characters this is substring search, i.e. `re.search` of a
literal pattern. -/
def listSub {α : Type} [DecidableEq α] (p : List α) : List α → Bool
  | [] => p.isEmpty
  | b :: ts => listPrefix p (b :: ts) || listSub p ts

/-- String `t` contains `pat` as a substring (Python `pat in t` /
`re.search` of the literal `pat`). -/
def containsSub (t pat : String) : Bool :=
  listSub pat.data t.data

/-- Embeds `re.search(pattern, text)` where `pattern` is an alternation
`(lit1|lit2|...)` of literal strings: some alternative is a substring of
`text`. -/
def reSearch (lits : List String) (text : String) : Bool :=
  lits.any (fun lit => containsSub text lit)

/-- Embeds Python `str.lower()` (character-wise lowercasing; all pattern
vocabulary in the source is ASCII). -/
def strLower (s : String) : String :=
  ⟨s.data.map Char.toLower⟩

/-- Embeds Python `str.strip()`: drop leading and trailing whitespace. -/
def strTrim (s : String) : String :=
  ⟨((s.data.dropWhile Char.isWhitespace).reverse.dropWhile
      Char.isWhitespace).reverse⟩

/-- The four urgency levels used by the source (the strings "low",
"moderate", "high", "immediate"). -/
inductive Urgency : Type where
  | low
  | moderate
  | high
  | immediate
deriving DecidableEq, Repr

/-- Numeric rank realising the order immediate > high > moderate > low. -/
def urgencyRank : Urgency → Nat
  | .low => 0
  | .moderate => 1
  | .high => 2
  | .immediate => 3

/-- Static description of one concern category: its regex patterns (each
an alternation of literals), urgency and response level. -/
structure ConcernInfo : Type where
  patterns : List (List String)
  urgency : Urgency
  response_level : String
deriving DecidableEq, Repr

/-- One entry of the `detected_concerns` list built by
`analyze_mental_health_needs`. -/
structure Concern : Type where
  type : String
  urgency : Urgency
  response_level : String
deriving DecidableEq, Repr

/-- The dictionary returned by `analyze_mental_health_needs`. -/
structure Analysis : Type where
  detected_concerns : List Concern
  highest_urgency : Urgency
  needs_immediate_help : Bool
  needs_professional_help : Bool
deriving DecidableEq, Repr

/-- One value of the `MENTAL_HEALTH_RESOURCES` dictionary. -/
structure Resource : Type where
  name : String
  description : String
  resources : List String
deriving DecidableEq, Repr

/-- Embeds the loop `for category in unique_categories: resources[category]
= MENTAL_HEALTH_RESOURCES[category]`; a missing key raises `KeyError` in
Python, embedded as `none`. -/
def lookupAll (cats : List String) (table : List (String × Resource)) :
    Option (List (String × Resource)) :=
  match cats with
  | [] => some []
  | c :: cs =>
    match table.lookup c, lookupAll cs table with
    | some r, some rest => some ((c, r) :: rest)
    | _, _ => none

/-- Renders a list of resource strings as the source loops do:
`response += f"• {resource}\n"` for each resource in order. -/
def renderLines : List String → String
  | [] => ""
  | r :: rs => "• " ++ r ++ "\n" ++ renderLines rs

/-- The `resources.get("immediate_crisis", {}).get("resources", [])`
access of `create_mental_health_response`. -/
def crisisLines (res : List (String × Resource)) : List String :=
  ((res.lookup "immediate_crisis").map Resource.resources).getD []

/-- Python `round(x, 3)` on the sympathy score (tie-breaking at exact
half-thousandths differs from float banker rounding; no claim depends on
ties). -/
def round3 (x : ℚ) : ℚ :=
  (round (x * 1000) : ℤ) / 1000

/-- The dictionary returned by `analyze_sympathy`. -/
structure Sympathy : Type where
  polarity : ℚ
  subjectivity : ℚ
  sympathy_score : ℚ
  sympathy_level : String
deriving DecidableEq, Repr

namespace Main

/-- CONCERN_PATTERNS entry "crisis_immediate" (src/main.py lines 24-32);
each regex `(a|b|...)` is the list of its literal alternatives. -/
def crisisInfo : ConcernInfo :=
  { patterns :=
      [["suicide", "kill myself", "end my life", "want to die", "better off dead"],
       ["going to hurt myself", "self harm", "cutting", "self injury"],
       ["no reason to live", "can\x27t go on", "end it all"]]
    urgency := .immediate
    response_level := "crisis" }

/-- CONCERN_PATTERNS entry "depression_signs" (src/main.py lines 33-45). -/
def depressionInfo : ConcernInfo :=
  { patterns :=
      [["depressed", "clinical depression", "major depression"],
       ["hopeless", "worthless", "empty inside"],
       ["can\x27t get out of bed", "no energy", "no motivation"],
       ["losing interest", "don\x27t enjoy anything"],
       ["crying every day", "constant sadness"],
       ["sleeping too much", "too little", "appetite changes"],
       ["thoughts of death", "suicidal thoughts"]]
    urgency := .high
    response_level := "professional" }

/-- CONCERN_PATTERNS entry "anxiety_signs" (src/main.py lines 46-56). -/
def anxietyInfo : ConcernInfo :=
  { patterns :=
      [["panic attack", "anxiety attack"],
       ["constant worry", "can\x27t stop worrying"],
       ["heart racing", "can\x27t breathe", "chest tight"],
       ["avoiding situations", "too anxious to"],
       ["obsessive thoughts", "compulsive behaviors"]]
    urgency := .moderate
    response_level := "professional" }

/-- CONCERN_PATTERNS entry "trauma_signs" (src/main.py lines 57-66). -/
def traumaInfo : ConcernInfo :=
  { patterns :=
      [["flashbacks", "nightmares", "ptsd"],
       ["traumatic memory", "childhood trauma"],
       ["triggered", "reminded of trauma"],
       ["dissociating", "feeling numb"]]
    urgency := .high
    response_level := "professional" }

/-- The CONCERN_PATTERNS dictionary of src/main.py in declaration order. -/
def CONCERN_PATTERNS : List (String × ConcernInfo) :=
  [("crisis_immediate", crisisInfo),
   ("depression_signs", depressionInfo),
   ("anxiety_signs", anxietyInfo),
   ("trauma_signs", traumaInfo)]

/-- The MENTAL_HEALTH_RESOURCES dictionary of src/main.py (lines 69-108). -/
def MENTAL_HEALTH_RESOURCES : List (String × Resource) :=
  [("immediate_crisis",
    { name := "Immediate Crisis Support"
      description := "Available 24/7 for immediate help"
      resources :=
        ["Vandrevala Foundation: 9999666555", "iCall: 9152987821",
         "AASRA: 9820466726", "Emergency: 112/108"] }),
   ("therapy_services",
    { name := "Professional Therapy"
      description := "Licensed mental health professionals"
      resources :=
        ["Practo - Find Psychiatrists & Therapists",
         "Lybrate - Online Mental Health Consultations",
         "YourDOST - Online Counseling", "Manastha - Online Therapy"] }),
   ("depression_support",
    { name := "Depression Support"
      description := "Specialized depression resources"
      resources :=
        ["Fortis Stress Helpline: +91-8376804102",
         "NIMHANS Bangalore: 080-46110007",
         "Depression and Bipolar Support Alliance"] }),
   ("anxiety_support",
    { name := "Anxiety Support"
      description := "Anxiety-specific help and tools"
      resources :=
        ["Anxiety and Depression Association of America",
         "Calm App for anxiety management", "Headspace for mindfulness"] })]

/-- The running precedence update of src/main.py lines 122-127: given the
current `highest_urgency` `h` and the urgency `u` of a newly detected
concern, compute the new `highest_urgency`. -/
def updUrgency (h u : Urgency) : Urgency :=
  if u = .immediate then .immediate
  else if u = .high ∧ h ≠ .immediate then .high
  else if u = .moderate ∧ h ∉ ([.immediate, .high] : List Urgency) then .moderate
  else h

/-- One iteration of the outer category loop of
`analyze_mental_health_needs` (lines 114-128): the inner pattern loop
tests the category's patterns in order and `break`s at the first match,
so its sole observable effect is whether some pattern matches (`any`,
which also short-circuits); on a match one concern is appended and the
urgency precedence update runs once. -/
def analyzeStep (text : String) (st : List Concern × Urgency)
    (e : String × ConcernInfo) : List Concern × Urgency :=
  if e.2.patterns.any (fun p => reSearch p (strLower text)) then
    (st.1 ++ [{ type := e.1, urgency := e.2.urgency,
                response_level := e.2.response_level }],
     updUrgency st.2 e.2.urgency)
  else st

/-- The loop of `analyze_mental_health_needs` (src/main.py lines
111-128): the accumulated `(detected_concerns, highest_urgency)` pair. -/
def analyzeRaw (text : String) : List Concern × Urgency :=
  CONCERN_PATTERNS.foldl (analyzeStep text) ([], .low)

/-- The `analyze_mental_health_needs` method of src/main.py (lines
110-135). -/
def analyze_mental_health_needs (text : String) : Analysis :=
  { detected_concerns := (analyzeRaw text).1
    highest_urgency := (analyzeRaw text).2
    needs_immediate_help := (analyzeRaw text).2 == .immediate
    needs_professional_help :=
      (analyzeRaw text).2 == .immediate || (analyzeRaw text).2 == .high }

/-- The category strings appended by the concern loop of
`get_recommended_resources` (lines 146-152). -/
def concernCategories : List Concern → List String
  | [] => []
  | c :: cs =>
    (if c.type = "depression_signs" then ["depression_support"]
     else if c.type = "anxiety_signs" then ["anxiety_support"]
     else if c.type = "trauma_signs" then ["therapy_services"]
     else []) ++ concernCategories cs

/-- The `get_recommended_resources` method of src/main.py (lines
137-159).  Returns `none` exactly when Python would raise `KeyError`
(which never happens for the categories actually appended). -/
def get_recommended_resources (analysis : Analysis) :
    Option (List (String × Resource)) :=
  let cats :=
    (if analysis.needs_immediate_help then ["immediate_crisis"] else [])
    ++ (if analysis.needs_professional_help then ["therapy_services"] else [])
    ++ concernCategories analysis.detected_concerns
  lookupAll cats.dedup MENTAL_HEALTH_RESOURCES

/-- The professional-help rendering loop of
`create_mental_health_response` (lines 175-179). -/
def renderProfessional : List (String × Resource) → String
  | [] => ""
  | (c, info) :: rest =>
    (if c ≠ "immediate_crisis" then
      "\n" ++ info.name ++ " - " ++ info.description ++ ":\n"
        ++ renderLines info.resources
     else "") ++ renderProfessional rest

/-- The general-support rendering loop of `create_mental_health_response`
(lines 187-190); only the first two resources of each category
(`info["resources"][:2]`). -/
def renderGeneral : List (String × Resource) → String
  | [] => ""
  | (_, info) :: rest =>
    "\n" ++ info.name ++ ":\n" ++ renderLines (info.resources.take 2)
      ++ renderGeneral rest

/-- The `create_mental_health_response` method of src/main.py (lines
161-194). -/
def create_mental_health_response (_user_message : String)
    (analysis : Analysis) (resources : List (String × Resource)) : String :=
  if analysis.needs_immediate_help then
    "I\x27m deeply concerned about your safety.\n\n"
    ++ "What you\x27re describing sounds incredibly painful, and your safety is the most important thing right now.\n\n"
    ++ "Please reach out to these crisis services immediately:\n"
    ++ renderLines (crisisLines resources)
    ++ "\nYou don\x27t have to face this alone - there are trained professionals available right now who want to help you."
  else if analysis.needs_professional_help then
    "Thank you for sharing this with me.\n\n"
    ++ "What you\x27re experiencing sounds really challenging, and it takes courage to talk about it. These feelings deserve proper professional support.\n\n"
    ++ "I strongly recommend connecting with these resources:\n"
    ++ renderProfessional resources
    ++ "\nA mental health professional can provide the proper assessment and support you deserve."
  else
    "I hear you.\n\n"
    ++ "It sounds like you\x27re going through a difficult time. While I\x27m here to listen and offer perspectives, these resources might be helpful for additional support:\n"
    ++ renderGeneral resources
    ++ "\nRemember that seeking support is a sign of strength, not weakness."

/-- The sympathy score formula of `analyze_sympathy` (src/main.py lines
214-217): `min(1.0, max(0.0, -polarity) * (1.0 + subjectivity) / 1.5)`. -/
def sympathyScore (polarity subjectivity : ℚ) : ℚ :=
  min 1 (max 0 (-polarity) * (1 + subjectivity) / 1.5)

/-- The level thresholds of `analyze_sympathy` (src/main.py lines
219-224). -/
def sympathyLevel (x : ℚ) : String :=
  if x ≥ 0.66 then "high" else if x ≥ 0.33 then "moderate" else "low"

/-- The `analyze_sympathy` method of src/main.py (lines 202-231), taking
the TextBlob sentiment output (already rounded to 3 decimals by lines
210-211) as explicit inputs. -/
def analyze_sympathy (polarity subjectivity : ℚ) : Sympathy :=
  let negative_factor := max 0 (-polarity)
  let raw_score := negative_factor * (1 + subjectivity)
  let sympathy_score := min 1 (raw_score / 1.5)
  { polarity := polarity
    subjectivity := subjectivity
    sympathy_score := round3 sympathy_score
    sympathy_level := sympathyLevel sympathy_score }

end Main

/-- The dictionary returned by `generate_comprehensive_response`. -/
structure GenResult : Type where
  response_type : String
  message : String
  mental_health_analysis : Analysis
  resources_provided : List (String × Resource)
  sympathy_analysis : Sympathy
deriving DecidableEq, Repr

namespace Part0

/-- CONCERN_PATTERNS entry "crisis_immediate" of the second source file
(lines 24-32), identical to the copy in src/main.py. -/
def crisisInfo : ConcernInfo :=
  { patterns :=
      [["suicide", "kill myself", "end my life", "want to die", "better off dead"],
       ["going to hurt myself", "self harm", "cutting", "self injury"],
       ["no reason to live", "can\x27t go on", "end it all"]]
    urgency := .immediate
    response_level := "crisis" }

/-- CONCERN_PATTERNS entry "depression_signs" (second file, lines 33-45). -/
def depressionInfo : ConcernInfo :=
  { patterns :=
      [["depressed", "clinical depression", "major depression"],
       ["hopeless", "worthless", "empty inside"],
       ["can\x27t get out of bed", "no energy", "no motivation"],
       ["losing interest", "don\x27t enjoy anything"],
       ["crying every day", "constant sadness"],
       ["sleeping too much", "too little", "appetite changes"],
       ["thoughts of death", "suicidal thoughts"]]
    urgency := .high
    response_level := "professional" }

/-- CONCERN_PATTERNS entry "anxiety_signs" (second file, lines 46-56). -/
def anxietyInfo : ConcernInfo :=
  { patterns :=
      [["panic attack", "anxiety attack"],
       ["constant worry", "can\x27t stop worrying"],
       ["heart racing", "can\x27t breathe", "chest tight"],
       ["avoiding situations", "too anxious to"],
       ["obsessive thoughts", "compulsive behaviors"]]
    urgency := .moderate
    response_level := "professional" }

/-- CONCERN_PATTERNS entry "trauma_signs" (second file, lines 57-66). -/
def traumaInfo : ConcernInfo :=
  { patterns :=
      [["flashbacks", "nightmares", "ptsd"],
       ["traumatic memory", "childhood trauma"],
       ["triggered", "reminded of trauma"],
       ["dissociating", "feeling numb"]]
    urgency := .high
    response_level := "professional" }

/-- The CONCERN_PATTERNS dictionary of the second file in declaration
order. -/
def CONCERN_PATTERNS : List (String × ConcernInfo) :=
  [("crisis_immediate", crisisInfo),
   ("depression_signs", depressionInfo),
   ("anxiety_signs", anxietyInfo),
   ("trauma_signs", traumaInfo)]

/-- The MENTAL_HEALTH_RESOURCES dictionary of the second file (lines
69-108). -/
def MENTAL_HEALTH_RESOURCES : List (String × Resource) :=
  [("immediate_crisis",
    { name := "Immediate Crisis Support"
      description := "Available 24/7 for immediate help"
      resources :=
        ["Vandrevala Foundation: 9999666555", "iCall: 9152987821",
         "AASRA: 9820466726", "Emergency: 112/108"] }),
   ("therapy_services",
    { name := "Professional Therapy"
      description := "Licensed mental health professionals"
      resources :=
        ["Practo - Find Psychiatrists & Therapists",
         "Lybrate - Online Mental Health Consultations",
         "YourDOST - Online Counseling", "Manastha - Online Therapy"] }),
   ("depression_support",
    { name := "Depression Support"
      description := "Specialized depression resources"
      resources :=
        ["Fortis Stress Helpline: +91-8376804102",
         "NIMHANS Bangalore: 080-46110007",
         "Depression and Bipolar Support Alliance"] }),
   ("anxiety_support",
    { name := "Anxiety Support"
      description := "Anxiety-specific help and tools"
      resources :=
        ["Anxiety and Depression Association of America",
         "Calm App for anxiety management", "Headspace for mindfulness"] })]

/-- The running precedence update of the second file (lines 121-126). -/
def updUrgency (h u : Urgency) : Urgency :=
  if u = .immediate then .immediate
  else if u = .high ∧ h ≠ .immediate then .high
  else if u = .moderate ∧ h ∉ ([.immediate, .high] : List Urgency) then .moderate
  else h

/-- One iteration of the outer category loop of the second file's
`analyze_mental_health_needs` (lines 113-127); as in the first copy, the
inner pattern loop with `break` is embedded by its observable effect
(some pattern of the category matches). -/
def analyzeStep (text : String) (st : List Concern × Urgency)
    (e : String × ConcernInfo) : List Concern × Urgency :=
  if e.2.patterns.any (fun p => reSearch p (strLower text)) then
    (st.1 ++ [{ type := e.1, urgency := e.2.urgency,
                response_level := e.2.response_level }],
     updUrgency st.2 e.2.urgency)
  else st

/-- The loop of the second file's `analyze_mental_health_needs` (lines
111-127). -/
def analyzeRaw (text : String) : List Concern × Urgency :=
  CONCERN_PATTERNS.foldl (analyzeStep text) ([], .low)

/-- The `analyze_mental_health_needs` method of the second file (lines
110-133). -/
def analyze_mental_health_needs (text : String) : Analysis :=
  { detected_concerns := (analyzeRaw text).1
    highest_urgency := (analyzeRaw text).2
    needs_immediate_help := (analyzeRaw text).2 == .immediate
    needs_professional_help :=
      (analyzeRaw text).2 == .immediate || (analyzeRaw text).2 == .high }

/-- The category strings appended by the concern loop of the second
file's `get_recommended_resources` (lines 141-147). -/
def concernCategories : List Concern → List String
  | [] => []
  | c :: cs =>
    (if c.type = "depression_signs" then ["depression_support"]
     else if c.type = "anxiety_signs" then ["anxiety_support"]
     else if c.type = "trauma_signs" then ["therapy_services"]
     else []) ++ concernCategories cs

/-- The `get_recommended_resources` method of the second file (lines
135-152). -/
def get_recommended_resources (analysis : Analysis) :
    Option (List (String × Resource)) :=
  let cats :=
    (if analysis.needs_immediate_help then ["immediate_crisis"] else [])
    ++ (if analysis.needs_professional_help then ["therapy_services"] else [])
    ++ concernCategories analysis.detected_concerns
  lookupAll cats.dedup MENTAL_HEALTH_RESOURCES

/-- The professional-help rendering loop of the second file's
`create_mental_health_response` (lines 166-170). -/
def renderProfessional : List (String × Resource) → String
  | [] => ""
  | (c, info) :: rest =>
    (if c ≠ "immediate_crisis" then
      "\n" ++ info.name ++ " - " ++ info.description ++ ":\n"
        ++ renderLines info.resources
     else "") ++ renderProfessional rest

/-- The general-support rendering loop of the second file's
`create_mental_health_response` (lines 175-178). -/
def renderGeneral : List (String × Resource) → String
  | [] => ""
  | (_, info) :: rest =>
    "\n" ++ info.name ++ ":\n" ++ renderLines (info.resources.take 2)
      ++ renderGeneral rest

/-- The `create_mental_health_response` method of the second file (lines
154-180). -/
def create_mental_health_response (_user_message : String)
    (analysis : Analysis) (resources : List (String × Resource)) : String :=
  if analysis.needs_immediate_help then
    "I\x27m deeply concerned about your safety.\n\n"
    ++ "What you\x27re describing sounds incredibly painful, and your safety is the most important thing right now.\n\n"
    ++ "Please reach out to these crisis services immediately:\n"
    ++ renderLines (crisisLines resources)
    ++ "\nYou don\x27t have to face this alone - there are trained professionals available right now who want to help you."
  else if analysis.needs_professional_help then
    "Thank you for sharing this with me.\n\n"
    ++ "What you\x27re experiencing sounds really challenging, and it takes courage to talk about it. These feelings deserve proper professional support.\n\n"
    ++ "I strongly recommend connecting with these resources:\n"
    ++ renderProfessional resources
    ++ "\nA mental health professional can provide the proper assessment and support you deserve."
  else
    "I hear you.\n\n"
    ++ "It sounds like you\x27re going through a difficult time. While I\x27m here to listen and offer perspectives, these resources might be helpful for additional support:\n"
    ++ renderGeneral resources
    ++ "\nRemember that seeking support is a sign of strength, not weakness."

/-- The `analyze_sympathy` method of the second file (lines 186-204),
taking the TextBlob sentiment output as explicit inputs. -/
def analyze_sympathy (polarity subjectivity : ℚ) : Sympathy :=
  let negative_factor := max 0 (-polarity)
  let raw_score := negative_factor * (1 + subjectivity)
  let sympathy_score := min 1 (raw_score / 1.5)
  { polarity := polarity
    subjectivity := subjectivity
    sympathy_score := round3 sympathy_score
    sympathy_level :=
      if sympathy_score ≥ 0.66 then "high"
      else if sympathy_score ≥ 0.33 then "moderate"
      else "low" }

/-- The greeting vocabulary of `generate_comprehensive_response` (second
file, lines 212-214). -/
def GREETING_WORDS : List String :=
  ["hi", "hello", "hey", "greetings", "good morning", "good evening",
   "good afternoon"]

/-- The happy-word vocabulary (second file, lines 222-224). -/
def HAPPY_WORDS : List String :=
  ["happy", "joyful", "joy", "glad", "content", "cheerful", "delighted",
   "pleased", "excited"]

/-- Python membership check `any(w in user_lower for w in ws)`: some
vocabulary entry is a substring of the lowercased stripped message. -/
def anyWord (ws : List String) (user_lower : String) : Bool :=
  ws.any (fun w => containsSub user_lower w)

/-- The fixed greeting template (second file, lines 215-218). -/
def greetingBase : String :=
  "Hello! 👋 It’s so nice to connect with you. How are you feeling today? "
  ++ "You can share anything on your mind, and I’m here to listen with care."

/-- The fixed happy template (second file, lines 225-228). -/
def happyBase : String :=
  "It’s wonderful to hear that you’re feeling happy! Celebrating these moments of joy is so important. "
  ++ "May your days be filled with many more such moments."

/-- The inner emotion-branch chain of `generate_comprehensive_response`
(second file, lines 233-286): returns `(base_response, response_type)`. -/
def pickInner (user_lower : String) : String × String :=
  if anyWord ["sad", "depressed", "hopeless", "empty",
      "can\x27t get out of bed", "blue", "down"] user_lower then
    ("I hear the profound sadness in your words. Remember, even in dark moments, "
      ++ "there is hope for renewal. Your feelings are valid and you are not alone.",
     "depression_support")
  else if anyWord ["anxious", "worried", "panic", "overwhelmed", "stress",
      "nervous", "tense"] user_lower then
    ("Anxiety can feel overwhelming, but you\x27re showing strength by speaking about it. "
      ++ "Sometimes, just acknowledging these feelings is the first step to calming your mind.",
     "anxiety_support")
  else if anyWord ["lonely", "isolated", "alone", "abandoned"] user_lower then
    ("Feeling alone is tough. Remember, connection is possible and you are valued. "
      ++ "Reaching out takes courage, and I’m here to listen.",
     "loneliness_support")
  else if anyWord ["angry", "frustrated", "mad", "irritated"] user_lower then
    ("Anger is a natural emotion. It can be a signal that something important needs attention. "
      ++ "It\x27s okay to feel this way, and expressing it can help bring clarity and relief.",
     "anger_support")
  else if anyWord ["grateful", "thankful", "blessed"] user_lower then
    ("Gratitude brings light into our lives. Thank you for sharing your positive feelings; "
      ++ "celebrating these moments is an important part of well-being.",
     "gratitude_support")
  else if anyWord ["hopeful", "optimistic", "encouraged"] user_lower then
    ("It’s wonderful to sense your hope and optimism. These feelings can be a guiding light "
      ++ "on your path toward healing and growth.",
     "hope_support")
  else if anyWord ["dream", "dreamt", "dreamed", "nightmare"] user_lower then
    ("Dreams are voices from your unconscious. In Jungian psychology, exploring them can open "
      ++ "new ways to understand your inner self.",
     "dream_analysis")
  else if anyWord ["trauma", "flashback", "ptsd", "nightmare"] user_lower then
    ("What you\x27ve experienced is deeply impactful. Healing takes time and support, and Jung believed "
      ++ "in the psyche\x27s capacity to mend itself.",
     "trauma_support")
  else
    ("Thank you for sharing with me. I’m here to hold space for your journey and help you find the "
      ++ "support that suits your needs.",
     "general_support")

/-- The `generate_comprehensive_response` method of the second file
(lines 206-305).  The TextBlob sentiment of the message is passed as
explicit rational inputs; the result is `none` exactly when the Python
code would raise (never reached in practice). -/
def generate_comprehensive_response (polarity subjectivity : ℚ)
    (user_message : String) (_session_id : String) : Option GenResult :=
  let mental_health_analysis := analyze_mental_health_needs user_message
  match get_recommended_resources mental_health_analysis with
  | none => none
  | some resources =>
    let sympathy_analysis := analyze_sympathy polarity subjectivity
    let user_lower := strTrim (strLower user_message)
    if anyWord GREETING_WORDS user_lower then
      some { response_type := "greeting"
             message := greetingBase
             mental_health_analysis := mental_health_analysis
             resources_provided := resources
             sympathy_analysis := sympathy_analysis }
    else if anyWord HAPPY_WORDS user_lower then
      some { response_type := "happy_support"
             message := happyBase
             mental_health_analysis := mental_health_analysis
             resources_provided := resources
             sympathy_analysis := sympathy_analysis }
    else
      let br := pickInner user_lower
      let empathy_preface :=
        if sympathy_analysis.sympathy_level = "high" then
          "I want you to know I’m truly sorry you’re going through this. You are not alone.\n\n"
        else if sympathy_analysis.sympathy_level = "moderate" then
          "I can hear that this is tough for you, and I’m here to support you.\n\n"
        else ""
      let resource_response :=
        create_mental_health_response user_message mental_health_analysis resources
      some { response_type := br.2
             message := empathy_preface ++ br.1 ++ "\n\n" ++ resource_response
             mental_health_analysis := mental_health_analysis
             resources_provided := resources
             sympathy_analysis := sympathy_analysis }

end Part0

/-- Characterisation of the concern list built by the category loop: one
concern per matching category, in category declaration order (used to
state and prove C7; proved equal to the loop's output below). -/
def Main.matchedConcerns (t : String) (l : List (String × ConcernInfo)) :
    List Concern :=
  l.filterMap (fun e =>
    if e.2.patterns.any (fun p => reSearch p (strLower t)) then
      some { type := e.1, urgency := e.2.urgency,
             response_level := e.2.response_level }
    else none)

/-- The greeting test actually performed by the second file's
`generate_comprehensive_response` (lines 212-214): some greeting phrase
is a substring of the lowercased stripped message. -/
def Part0.isGreetingMessage (msg : String) : Bool :=
  Part0.anyWord Part0.GREETING_WORDS (strTrim (strLower msg))

/-- Modelled from the claim's wording, not from the source: "exact
word-in-message membership" of a greeting phrase — the phrase's
space-separated tokens occur contiguously among the space-separated
tokens of the lowercased stripped message.  Used only to refute the
claim as stated. -/
def specGreetingWord (msg : String) : Bool :=
  Part0.GREETING_WORDS.any (fun g =>
    listSub (g.data.splitOn ' ') ((strTrim (strLower msg)).data.splitOn ' '))

/-- The result record of `generate_comprehensive_response` on the
message "hello" with neutral sentiment (used as a concrete witness). -/
def helloResult : GenResult :=
  { response_type := "greeting"
    message := Part0.greetingBase
    mental_health_analysis := Part0.analyze_mental_health_needs "hello"
    resources_provided := []
    sympathy_analysis := Part0.analyze_sympathy 0 0 }

namespace Main

/-- Once the running urgency is immediate, the precedence update keeps it. -/
lemma updUrgency_immediate (u : Urgency) :
    updUrgency Urgency.immediate u = Urgency.immediate := by
  cases u <;> rfl

/-- The category loop never lowers an immediate running urgency. -/
lemma foldl_analyzeStep_immediate (t : String) :
    ∀ (l : List (String × ConcernInfo)) (cs : List Concern),
    (l.foldl (analyzeStep t) (cs, Urgency.immediate)).2 = Urgency.immediate := by
  intro l
  induction l with
  | nil => intro cs; rfl
  | cons e l ih =>
    intro cs
    simp only [List.foldl_cons, analyzeStep]
    split
    · simp only [updUrgency_immediate]; exact ih _
    · exact ih cs

/-- Computation of the first fold step when some crisis pattern matches. -/
lemma step_crisis (t : String)
    (hp : Main.crisisInfo.patterns.any (fun p => reSearch p (strLower t)) = true) :
    Main.analyzeStep t ([], .low) ("crisis_immediate", Main.crisisInfo)
      = ([{ type := "crisis_immediate", urgency := .immediate,
            response_level := "crisis" }], .immediate) := by
  simp only [Main.analyzeStep, hp, if_true]
  decide

end Main

/-- Claim C1: for every input text in which some crisis_immediate regex
pattern matches, `analyze_mental_health_needs` returns
needs_immediate_help = true and highest_urgency = "immediate",
regardless of which other lower-urgency category patterns also match. -/
theorem crisis_immediate_dominates (t : String)
    (h : ∃ p ∈ Main.crisisInfo.patterns, reSearch p (strLower t) = true) :
    (Main.analyze_mental_health_needs t).needs_immediate_help = true
    ∧ (Main.analyze_mental_health_needs t).highest_urgency = Urgency.immediate := by
  have hr : (Main.analyzeRaw t).2 = Urgency.immediate := by
    have hany : Main.crisisInfo.patterns.any
        (fun p => reSearch p (strLower t)) = true := by
      rw [List.any_eq_true]
      obtain ⟨p, hp, hP⟩ := h
      exact ⟨p, hp, hP⟩
    have h1 : Main.analyzeRaw t
        = List.foldl (Main.analyzeStep t)
            (Main.analyzeStep t ([], .low) ("crisis_immediate", Main.crisisInfo))
            [("depression_signs", Main.depressionInfo),
             ("anxiety_signs", Main.anxietyInfo),
             ("trauma_signs", Main.traumaInfo)] := rfl
    rw [h1, Main.step_crisis t hany]
    exact Main.foldl_analyzeStep_immediate t _ _
  constructor
  · simp [Main.analyze_mental_health_needs, hr]
  · simp [Main.analyze_mental_health_needs, hr]

/-- Witness for C1 at the concrete crisis text "I want to die". -/
theorem crisis_immediate_dominates_witness :
    (Main.analyze_mental_health_needs "I want to die").needs_immediate_help = true
    ∧ (Main.analyze_mental_health_needs "I want to die").highest_urgency
        = Urgency.immediate :=
  crisis_immediate_dominates "I want to die"
    ⟨["suicide", "kill myself", "end my life", "want to die", "better off dead"],
     by decide, by decide⟩

/-- Claim C8: the empty string input (with a neutral sentiment default
polarity = 0, subjectivity = 0) is handled without failure: no detected
concerns, lowest urgency, and the composer answers with the
general_support branch. -/
theorem empty_input_defaults :
    (Main.analyze_mental_health_needs "").detected_concerns = []
    ∧ (Main.analyze_mental_health_needs "").highest_urgency = Urgency.low
    ∧ (Part0.generate_comprehensive_response 0 0 "" "sid").map
        GenResult.response_type = some "general_support" := by
  refine ⟨by decide, by decide, by decide⟩

/-- The two copies declare the same resource table. -/
lemma tables_eq : Main.MENTAL_HEALTH_RESOURCES = Part0.MENTAL_HEALTH_RESOURCES :=
  rfl

/-- The two copies append the same categories for a concern list. -/
lemma concernCategories_eq (l : List Concern) :
    Main.concernCategories l = Part0.concernCategories l := by
  induction l with
  | nil => rfl
  | cons c cs ih =>
    simp only [Main.concernCategories, Part0.concernCategories, ih]

/-- The two copies render the professional-help block identically. -/
lemma renderProfessional_eq (r : List (String × Resource)) :
    Main.renderProfessional r = Part0.renderProfessional r := by
  induction r with
  | nil => rfl
  | cons e rest ih =>
    obtain ⟨c, info⟩ := e
    simp only [Main.renderProfessional, Part0.renderProfessional, ih]

/-- The two copies render the general-support block identically. -/
lemma renderGeneral_eq (r : List (String × Resource)) :
    Main.renderGeneral r = Part0.renderGeneral r := by
  induction r with
  | nil => rfl
  | cons e rest ih =>
    obtain ⟨c, info⟩ := e
    simp only [Main.renderGeneral, Part0.renderGeneral, ih]

/-- Claim C10: the two copies of `MentalHealthResourceGuide` (and
`analyze_sympathy`) in the two source files are extensionally equal on
every input. -/
theorem main_part0_extensionally_equal :
    (∀ t, Main.analyze_mental_health_needs t = Part0.analyze_mental_health_needs t)
    ∧ (∀ a, Main.get_recommended_resources a = Part0.get_recommended_resources a)
    ∧ (∀ m a r, Main.create_mental_health_response m a r
        = Part0.create_mental_health_response m a r)
    ∧ (∀ p s, Main.analyze_sympathy p s = Part0.analyze_sympathy p s) := by
  refine ⟨fun _ => rfl, fun a => ?_, fun m a r => ?_, fun _ _ => rfl⟩
  · simp only [Main.get_recommended_resources, Part0.get_recommended_resources,
      concernCategories_eq, tables_eq]
  · simp only [Main.create_mental_health_response,
      Part0.create_mental_health_response, renderProfessional_eq,
      renderGeneral_eq]

/-- The empty pattern is a substring of every list. -/
lemma listSub_nil {α : Type} [DecidableEq α] (t : List α) :
    listSub ([] : List α) t = true := by
  cases t <;> simp [listSub, listPrefix, List.isEmpty]

/-- A prefix stays a prefix after extending the text on the right. -/
lemma listPrefix_append_right {α : Type} [DecidableEq α] :
    ∀ (p t s : List α), listPrefix p t = true → listPrefix p (t ++ s) = true := by
  intro p
  induction p with
  | nil => intro t s _; rfl
  | cons a ps ih =>
    intro t s h
    cases t with
    | nil => simp [listPrefix] at h
    | cons b ts =>
      simp only [listPrefix, Bool.and_eq_true] at h
      simp only [List.cons_append, listPrefix, Bool.and_eq_true]
      exact ⟨h.1, ih ts s h.2⟩

/-- Every list is a prefix of itself followed by anything. -/
lemma listPrefix_self_append {α : Type} [DecidableEq α] (p r : List α) :
    listPrefix p (p ++ r) = true := by
  induction p with
  | nil => rfl
  | cons a ps ih => simp [listPrefix, ih]

/-- A prefix of the text is in particular a substring. -/
lemma listSub_of_listPrefix {α : Type} [DecidableEq α] (p t : List α)
    (h : listPrefix p t = true) : listSub p t = true := by
  cases t with
  | nil =>
    cases p with
    | nil => rfl
    | cons a ps => simp [listPrefix] at h
  | cons b ts => simp [listSub, h]

/-- Substring occurrence is preserved by prepending text. -/
lemma listSub_append_left {α : Type} [DecidableEq α] (p s t : List α)
    (h : listSub p t = true) : listSub p (s ++ t) = true := by
  induction s with
  | nil => exact h
  | cons a s ih => simp [listSub, ih]

/-- Substring occurrence is preserved by appending text. -/
lemma listSub_append_right {α : Type} [DecidableEq α] :
    ∀ (p t s : List α), listSub p t = true → listSub p (t ++ s) = true := by
  intro p t
  induction t with
  | nil =>
    intro s h
    simp only [listSub, List.isEmpty_iff] at h
    subst h
    exact listSub_nil s
  | cons b ts ih =>
    intro s h
    simp only [listSub, Bool.or_eq_true] at h
    rcases h with h | h
    · exact listSub_of_listPrefix _ _ (listPrefix_append_right p (b :: ts) s h)
    · simp only [List.cons_append, listSub, Bool.or_eq_true]
      exact Or.inr (ih s h)

/-- Every rendered bullet line occurs in the output of `renderLines`. -/
lemma sub_renderLines (s : String) (l : List String) (h : s ∈ l) :
    listSub ("• " ++ s ++ "\n").data (renderLines l).data = true := by
  induction l with
  | nil => cases h
  | cons a rest ih =>
    rcases List.mem_cons.mp h with rfl | hmem
    · simp only [renderLines, String.data_append]
      exact listSub_of_listPrefix _ _ (listPrefix_self_append _ _)
    · simp only [renderLines, String.data_append]
      exact listSub_append_left _ _ _ (ih hmem)

/-- Claim C5: whenever needs_immediate_help holds, the composed message
is the fixed safety preface followed by the enumerated immediate_crisis
resource lines only: every crisis line occurs verbatim as a bullet line,
and the message depends on the bundle only through its immediate_crisis
entry. -/
theorem crisis_message_only_crisis_lines (m : String) (a : Analysis)
    (res : List (String × Resource)) (h : a.needs_immediate_help = true) :
    Main.create_mental_health_response m a res
      = "I\x27m deeply concerned about your safety.\n\n"
        ++ "What you\x27re describing sounds incredibly painful, and your safety is the most important thing right now.\n\n"
        ++ "Please reach out to these crisis services immediately:\n"
        ++ renderLines (crisisLines res)
        ++ "\nYou don\x27t have to face this alone - there are trained professionals available right now who want to help you."
    ∧ (∀ s ∈ crisisLines res,
        containsSub (Main.create_mental_health_response m a res)
          ("• " ++ s ++ "\n") = true)
    ∧ (∀ res2, crisisLines res2 = crisisLines res →
        Main.create_mental_health_response m a res2
          = Main.create_mental_health_response m a res) := by
  have hc : Main.create_mental_health_response m a res
      = "I\x27m deeply concerned about your safety.\n\n"
        ++ "What you\x27re describing sounds incredibly painful, and your safety is the most important thing right now.\n\n"
        ++ "Please reach out to these crisis services immediately:\n"
        ++ renderLines (crisisLines res)
        ++ "\nYou don\x27t have to face this alone - there are trained professionals available right now who want to help you." := by
    simp [Main.create_mental_health_response, h]
  refine ⟨hc, ?_, ?_⟩
  · intro s hs
    rw [hc]
    unfold containsSub
    simp only [String.data_append]
    exact listSub_append_right _ _ _
      (listSub_append_left _ _ _ (sub_renderLines s _ hs))
  · intro res2 h2
    simp only [Main.create_mental_health_response, h, if_true, h2]

/-- Witness for C5: the crisis hotline line occurs verbatim in the
composed message for the crisis input. -/
theorem crisis_message_only_crisis_lines_witness :
    containsSub
      (Main.create_mental_health_response "I want to kill myself"
        { detected_concerns := [], highest_urgency := .immediate,
          needs_immediate_help := true, needs_professional_help := true }
        Main.MENTAL_HEALTH_RESOURCES)
      ("• " ++ "Vandrevala Foundation: 9999666555" ++ "\n") = true :=
  (crisis_message_only_crisis_lines "I want to kill myself"
      { detected_concerns := [], highest_urgency := .immediate,
        needs_immediate_help := true, needs_professional_help := true }
      Main.MENTAL_HEALTH_RESOURCES rfl).2.1
    "Vandrevala Foundation: 9999666555" (by decide)

namespace Main

/-- One fold step when the category matches. -/
lemma analyzeStep_pos (t : String) (st : List Concern × Urgency)
    (e : String × ConcernInfo)
    (hb : (e.2.patterns.any fun p => reSearch p (strLower t)) = true) :
    analyzeStep t st e
      = (st.1 ++ [⟨e.1, e.2.urgency, e.2.response_level⟩],
         updUrgency st.2 e.2.urgency) := by
  unfold analyzeStep
  rw [if_pos hb]

/-- One fold step when the category does not match. -/
lemma analyzeStep_neg (t : String) (st : List Concern × Urgency)
    (e : String × ConcernInfo)
    (hb : (e.2.patterns.any fun p => reSearch p (strLower t)) = false) :
    analyzeStep t st e = st := by
  unfold analyzeStep
  rw [if_neg (by simp [hb])]

/-- Unfolding `matchedConcerns` on a matching head category. -/
lemma matchedConcerns_cons_pos (t : String) (e : String × ConcernInfo)
    (l : List (String × ConcernInfo))
    (hb : (e.2.patterns.any fun p => reSearch p (strLower t)) = true) :
    matchedConcerns t (e :: l)
      = ⟨e.1, e.2.urgency, e.2.response_level⟩ :: matchedConcerns t l := by
  unfold matchedConcerns
  rw [List.filterMap_cons, if_pos hb]

/-- Unfolding `matchedConcerns` on a non-matching head category. -/
lemma matchedConcerns_cons_neg (t : String) (e : String × ConcernInfo)
    (l : List (String × ConcernInfo))
    (hb : (e.2.patterns.any fun p => reSearch p (strLower t)) = false) :
    matchedConcerns t (e :: l) = matchedConcerns t l := by
  unfold matchedConcerns
  rw [List.filterMap_cons, if_neg (by simp [hb])]

/-- The category loop computes exactly the matched-category concern list
and folds the precedence update over the matched urgencies. -/
lemma foldl_analyzeStep_spec (t : String) :
    ∀ (l : List (String × ConcernInfo)) (cs : List Concern) (u : Urgency),
    (l.foldl (analyzeStep t) (cs, u)).1 = cs ++ matchedConcerns t l
    ∧ (l.foldl (analyzeStep t) (cs, u)).2
      = (matchedConcerns t l).foldl (fun h c => updUrgency h c.urgency) u := by
  intro l
  induction l with
  | nil => intro cs u; simp [matchedConcerns]
  | cons e l ih =>
    intro cs u
    cases hb : (e.2.patterns.any fun p => reSearch p (strLower t)) with
    | true =>
      rw [List.foldl_cons, analyzeStep_pos t (cs, u) e hb,
        matchedConcerns_cons_pos t e l hb]
      obtain ⟨ih1, ih2⟩ := ih (cs ++ [⟨e.1, e.2.urgency, e.2.response_level⟩])
        (updUrgency u e.2.urgency)
      constructor
      · rw [ih1, List.append_assoc]; rfl
      · rw [ih2]; rfl
    | false =>
      rw [List.foldl_cons, analyzeStep_neg t (cs, u) e hb,
        matchedConcerns_cons_neg t e l hb]
      exact ih cs u

/-- The precedence update never decreases the running urgency. -/
lemma rank_le_updUrgency (i a : Urgency) :
    urgencyRank i ≤ urgencyRank (updUrgency i a) := by
  cases i <;> cases a <;> decide

/-- The new urgency is at least the rank of the incoming concern. -/
lemma rank_arg_le_updUrgency (i a : Urgency) :
    urgencyRank a ≤ urgencyRank (updUrgency i a) := by
  cases i <;> cases a <;> decide

/-- The precedence update returns one of its two arguments. -/
lemma updUrgency_eq_or (i a : Urgency) :
    updUrgency i a = i ∨ updUrgency i a = a := by
  cases i <;> cases a <;> simp [updUrgency]

/-- The urgency fold only grows the rank of its initial value. -/
lemma rank_le_foldl_updUrgency :
    ∀ (l : List Urgency) (i : Urgency),
    urgencyRank i ≤ urgencyRank (l.foldl updUrgency i) := by
  intro l
  induction l with
  | nil => intro i; exact Nat.le_refl _
  | cons a l ih =>
    intro i
    exact Nat.le_trans (rank_le_updUrgency i a) (ih (updUrgency i a))

/-- Every list element's rank is bounded by the fold's result. -/
lemma mem_rank_le_foldl_updUrgency :
    ∀ (l : List Urgency) (i : Urgency) (u : Urgency), u ∈ l →
    urgencyRank u ≤ urgencyRank (l.foldl updUrgency i) := by
  intro l
  induction l with
  | nil => intro i u h; cases h
  | cons a l ih =>
    intro i u h
    rcases List.mem_cons.mp h with rfl | hmem
    · exact Nat.le_trans (rank_arg_le_updUrgency i u)
        (rank_le_foldl_updUrgency l (updUrgency i u))
    · exact ih (updUrgency i a) u hmem

/-- The fold's result is the initial value or one of the list elements. -/
lemma foldl_updUrgency_mem_or :
    ∀ (l : List Urgency) (i : Urgency),
    l.foldl updUrgency i = i ∨ l.foldl updUrgency i ∈ l := by
  intro l
  induction l with
  | nil => intro i; exact Or.inl rfl
  | cons a l ih =>
    intro i
    rcases ih (updUrgency i a) with h | h
    · rcases updUrgency_eq_or i a with h2 | h2
      · exact Or.inl (by rw [List.foldl_cons, h, h2])
      · exact Or.inr (by rw [List.foldl_cons, h, h2]; exact List.mem_cons_self _ _)
    · exact Or.inr (List.mem_cons_of_mem _ h)

/-- The precedence update is right-commutative. -/
lemma updUrgency_right_comm (b a₁ a₂ : Urgency) :
    updUrgency (updUrgency b a₁) a₂ = updUrgency (updUrgency b a₂) a₁ := by
  cases b <;> cases a₁ <;> cases a₂ <;> rfl

end Main

/-- Claim C7: each call records at most one concern per category (the
concern list is exactly one entry per matching category), ordered by
category declaration order, never by severity; in particular the
category names of the detected concerns form a duplicate-free sublist of
the declaration order. -/
theorem concerns_once_per_category_in_order (t : String) :
    (Main.analyze_mental_health_needs t).detected_concerns
      = Main.matchedConcerns t Main.CONCERN_PATTERNS
    ∧ ((Main.analyze_mental_health_needs t).detected_concerns.map
        Concern.type).Sublist (Main.CONCERN_PATTERNS.map Prod.fst)
    ∧ ((Main.analyze_mental_health_needs t).detected_concerns.map
        Concern.type).Nodup := by
  have h1 : (Main.analyze_mental_health_needs t).detected_concerns
      = Main.matchedConcerns t Main.CONCERN_PATTERNS := by
    have := (Main.foldl_analyzeStep_spec t Main.CONCERN_PATTERNS [] .low).1
    simpa [Main.analyze_mental_health_needs, Main.analyzeRaw] using this
  have hsub : ∀ (l : List (String × ConcernInfo)),
      ((Main.matchedConcerns t l).map Concern.type).Sublist
        (l.map Prod.fst) := by
    intro l
    induction l with
    | nil => simp [Main.matchedConcerns]
    | cons e l ih =>
      cases hb : (e.2.patterns.any fun p => reSearch p (strLower t)) with
      | true =>
        rw [Main.matchedConcerns_cons_pos t e l hb, List.map_cons, List.map_cons]
        exact List.Sublist.cons₂ _ ih
      | false =>
        rw [Main.matchedConcerns_cons_neg t e l hb, List.map_cons]
        exact List.Sublist.cons _ ih
  refine ⟨h1, ?_, ?_⟩
  · rw [h1]; exact hsub Main.CONCERN_PATTERNS
  · rw [h1]
    exact List.Nodup.sublist (hsub Main.CONCERN_PATTERNS) (by decide)

/-- Claim C3: the urgency aggregation is order-independent — folding the
running precedence update over the matched urgencies in any permutation
gives the same result, which is an upper bound of all matched urgencies
(maximum under immediate > high > moderate > low), is itself one of the
matched urgencies or "low" when nothing matched, and is exactly what
`analyze_mental_health_needs` stores in highest_urgency. -/
theorem urgency_fold_perm_max (l₁ l₂ : List Urgency) (hp : l₁.Perm l₂) :
    l₁.foldl Main.updUrgency Urgency.low = l₂.foldl Main.updUrgency Urgency.low
    ∧ (∀ u ∈ l₁,
        urgencyRank u ≤ urgencyRank (l₁.foldl Main.updUrgency Urgency.low))
    ∧ (l₁.foldl Main.updUrgency Urgency.low ∈ l₁
        ∨ l₁.foldl Main.updUrgency Urgency.low = Urgency.low)
    ∧ (∀ t, (Main.analyze_mental_health_needs t).highest_urgency
        = ((Main.analyze_mental_health_needs t).detected_concerns.map
            Concern.urgency).foldl Main.updUrgency Urgency.low) := by
  refine ⟨?_, ?_, ?_, ?_⟩
  · haveI : RightCommutative Main.updUrgency := ⟨Main.updUrgency_right_comm⟩
    exact hp.foldl_eq Urgency.low
  · intro u hu
    exact Main.mem_rank_le_foldl_updUrgency l₁ Urgency.low u hu
  · rcases Main.foldl_updUrgency_mem_or l₁ Urgency.low with h | h
    · exact Or.inr h
    · exact Or.inl h
  · intro t
    have h2 := (Main.foldl_analyzeStep_spec t Main.CONCERN_PATTERNS [] .low).2
    have h1 := (Main.foldl_analyzeStep_spec t Main.CONCERN_PATTERNS [] .low).1
    have hu : (Main.analyze_mental_health_needs t).highest_urgency
        = (Main.matchedConcerns t Main.CONCERN_PATTERNS).foldl
            (fun h c => Main.updUrgency h c.urgency) Urgency.low := by
      simpa [Main.analyze_mental_health_needs, Main.analyzeRaw] using h2
    have hd : (Main.analyze_mental_health_needs t).detected_concerns
        = Main.matchedConcerns t Main.CONCERN_PATTERNS := by
      simpa [Main.analyze_mental_health_needs, Main.analyzeRaw] using h1
    rw [hu, hd, List.foldl_map]

/-- Witness for C3 at a concrete permutation of matched urgencies. -/
theorem urgency_fold_perm_max_witness :
    [Urgency.high, Urgency.moderate].foldl Main.updUrgency Urgency.low
      = [Urgency.moderate, Urgency.high].foldl Main.updUrgency Urgency.low :=
  (urgency_fold_perm_max [Urgency.high, Urgency.moderate]
    [Urgency.moderate, Urgency.high] (by decide)).1

/-- Successful lookups preserve the requested key list exactly. -/
lemma lookupAll_keys (table : List (String × Resource)) :
    ∀ (cats : List String) (b : List (String × Resource)),
    lookupAll cats table = some b → b.map Prod.fst = cats := by
  intro cats
  induction cats with
  | nil =>
    intro b h
    simp only [lookupAll, Option.some.injEq] at h
    subst h
    rfl
  | cons c cs ih =>
    intro b h
    simp only [lookupAll] at h
    cases hl : table.lookup c with
    | none => rw [hl] at h; simp at h
    | some r =>
      rw [hl] at h
      cases hr : lookupAll cs table with
      | none => rw [hr] at h; simp at h
      | some rest =>
        rw [hr] at h
        simp only [Option.some.injEq] at h
        subst h
        simp [ih rest hr]

namespace Main

/-- The concern loop of `get_recommended_resources` never requests the
immediate_crisis category. -/
lemma ic_not_mem_concernCategories :
    ∀ (l : List Concern), "immediate_crisis" ∉ concernCategories l := by
  intro l
  induction l with
  | nil => simp [concernCategories]
  | cons c cs ih =>
    simp only [concernCategories, List.mem_append]
    rintro (h | h)
    · split at h
      · simp at h
      · split at h
        · simp at h
        · split at h
          · simp at h
          · simp at h
    · exact ih h

end Main

/-- Claim C4: the resource bundle contains the immediate_crisis category
exactly when the analysis has needs_immediate_help set. -/
theorem bundle_crisis_iff_immediate (a : Analysis)
    (b : List (String × Resource))
    (h : Main.get_recommended_resources a = some b) :
    ("immediate_crisis" ∈ b.map Prod.fst ↔ a.needs_immediate_help = true) := by
  simp only [Main.get_recommended_resources] at h
  have hk := lookupAll_keys Main.MENTAL_HEALTH_RESOURCES _ b h
  rw [hk, List.mem_dedup, List.mem_append, List.mem_append]
  cases hf : a.needs_immediate_help with
  | true =>
    simp only [hf, if_true]
    constructor
    · intro _; trivial
    · intro _
      exact Or.inl (Or.inl (by decide))
  | false =>
    simp only [Bool.false_eq_true, if_false]
    constructor
    · rintro ((h1 | h1) | h1)
      · simp at h1
      · split at h1 <;> simp_all
      · exact absurd h1 (Main.ic_not_mem_concernCategories _)
    · intro h1
      simp at h1

/-- Witness for C4 on an analysis with the immediate flag set. -/
theorem bundle_crisis_iff_immediate_witness :
    "immediate_crisis"
      ∈ ((Main.get_recommended_resources
          { detected_concerns := [], highest_urgency := .immediate,
            needs_immediate_help := true,
            needs_professional_help := true }).getD []).map Prod.fst :=
  (bundle_crisis_iff_immediate
    { detected_concerns := [], highest_urgency := .immediate,
      needs_immediate_help := true, needs_professional_help := true }
    _ (by decide)).mpr rfl

/-- Claim C9: the resource bundle never contains a category twice, even
when several selection rules request the same category. -/
theorem bundle_nodup (a : Analysis) (b : List (String × Resource))
    (h : Main.get_recommended_resources a = some b) :
    (b.map Prod.fst).Nodup := by
  simp only [Main.get_recommended_resources] at h
  have hk := lookupAll_keys Main.MENTAL_HEALTH_RESOURCES _ b h
  rw [hk]
  exact List.nodup_dedup _

/-- Witness for C9 on an analysis where the trauma rule and the generic
professional-help rule both request therapy_services. -/
theorem bundle_nodup_witness :
    (((Main.get_recommended_resources
        { detected_concerns :=
            [{ type := "trauma_signs", urgency := .high,
               response_level := "professional" }],
          highest_urgency := .high,
          needs_immediate_help := false,
          needs_professional_help := true }).getD []).map Prod.fst).Nodup :=
  bundle_nodup
    { detected_concerns :=
        [{ type := "trauma_signs", urgency := .high,
           response_level := "professional" }],
      highest_urgency := .high,
      needs_immediate_help := false,
      needs_professional_help := true }
    _ (by decide)

/-- Claim C6: the sympathy score lies in [0,1] for polarity in [-1,1]
and subjectivity in [0,1], is non-decreasing as polarity decreases and
as subjectivity increases, the level thresholds map score ≥ 0.66 to
high, ≥ 0.33 to moderate and anything lower to low, the concrete inputs
polarity = -0.5, subjectivity = 0.8 give score 0.6 and level moderate,
and `analyze_sympathy` stores exactly this level. -/
theorem sympathy_score_properties :
    (∀ p s : ℚ, -1 ≤ p → p ≤ 1 → 0 ≤ s → s ≤ 1 →
      0 ≤ Main.sympathyScore p s ∧ Main.sympathyScore p s ≤ 1)
    ∧ (∀ p₁ p₂ s : ℚ, 0 ≤ s → p₁ ≤ p₂ →
        Main.sympathyScore p₂ s ≤ Main.sympathyScore p₁ s)
    ∧ (∀ p s₁ s₂ : ℚ, s₁ ≤ s₂ →
        Main.sympathyScore p s₁ ≤ Main.sympathyScore p s₂)
    ∧ (∀ x : ℚ, (0.66 ≤ x → Main.sympathyLevel x = "high")
        ∧ (0.33 ≤ x → x < 0.66 → Main.sympathyLevel x = "moderate")
        ∧ (x < 0.33 → Main.sympathyLevel x = "low"))
    ∧ Main.sympathyScore (-0.5) 0.8 = 0.6
    ∧ Main.sympathyLevel (Main.sympathyScore (-0.5) 0.8) = "moderate"
    ∧ (∀ p s : ℚ, (Main.analyze_sympathy p s).sympathy_level
        = Main.sympathyLevel (Main.sympathyScore p s)) := by
  have hscore : Main.sympathyScore (-0.5) 0.8 = 0.6 := by
    unfold Main.sympathyScore
    rw [show (-(-0.5 : ℚ)) = 0.5 by norm_num,
      max_eq_right (by norm_num : (0 : ℚ) ≤ 0.5),
      show ((0.5 : ℚ) * (1 + 0.8) / 1.5) = 0.6 by norm_num,
      min_eq_right (by norm_num : (0.6 : ℚ) ≤ 1)]
  have hlevel : Main.sympathyLevel (0.6 : ℚ) = "moderate" := by
    unfold Main.sympathyLevel
    rw [if_neg (by norm_num), if_pos (by norm_num)]
  refine ⟨?_, ?_, ?_, ?_, hscore, by rw [hscore]; exact hlevel, fun p s => rfl⟩
  · intro p s _ _ hs0 _
    constructor
    · have hm : (0 : ℚ) ≤ max 0 (-p) := le_max_left 0 (-p)
      have h1s : (0 : ℚ) ≤ 1 + s := by linarith
      have hq : (0 : ℚ) ≤ max 0 (-p) * (1 + s) / 1.5 :=
        div_nonneg (mul_nonneg hm h1s) (by norm_num)
      exact le_min (by norm_num) hq
    · exact min_le_left _ _
  · intro p₁ p₂ s hs0 h12
    have h1s : (0 : ℚ) ≤ 1 + s := by linarith
    have hmax : max 0 (-p₂) ≤ max 0 (-p₁) :=
      max_le_max le_rfl (neg_le_neg h12)
    unfold Main.sympathyScore
    refine min_le_min le_rfl ?_
    have := mul_le_mul_of_nonneg_right hmax h1s
    exact (div_le_div_iff_of_pos_right (by norm_num)).mpr this
  · intro p s₁ s₂ h
    have hm : (0 : ℚ) ≤ max 0 (-p) := le_max_left 0 (-p)
    unfold Main.sympathyScore
    refine min_le_min le_rfl ?_
    have := mul_le_mul_of_nonneg_left (by linarith : (1:ℚ) + s₁ ≤ 1 + s₂) hm
    exact (div_le_div_iff_of_pos_right (by norm_num)).mpr this
  · intro x
    refine ⟨?_, ?_, ?_⟩
    · intro h
      unfold Main.sympathyLevel
      rw [if_pos (by exact h)]
    · intro h1 h2
      unfold Main.sympathyLevel
      rw [if_neg (by intro hge; exact absurd hge (not_le.mpr h2)),
        if_pos (by exact h1)]
    · intro h
      unfold Main.sympathyLevel
      rw [if_neg (by intro hge; exact absurd hge (not_le.mpr (by linarith))),
        if_neg (by intro hge; exact absurd hge (not_le.mpr h))]

/-- Witness for C6 at the concrete inputs of the claim. -/
theorem sympathy_score_properties_witness :
    0 ≤ Main.sympathyScore (-0.5) 0.8 ∧ Main.sympathyScore (-0.5) 0.8 ≤ 1 :=
  sympathy_score_properties.1 (-0.5) 0.8 (by norm_num) (by norm_num)
    (by norm_num) (by norm_num)

/-- The inner emotion chain never produces the greeting response type. -/
lemma Part0.pickInner_ne_greeting (u : String) :
    (Part0.pickInner u).2 ≠ "greeting" := by
  unfold Part0.pickInner
  split_ifs <;> decide

/-- Claim C2 (amended): the greeting branch of the second file's
`generate_comprehensive_response` is taken exactly when some greeting
phrase occurs as a substring (Python `in`) of the lowercased stripped
message — not exact word membership — and in that case the fixed
greeting template is returned verbatim as the message. -/
theorem greeting_branch_substring (p s : ℚ) (msg sid : String)
    (g : GenResult)
    (h : Part0.generate_comprehensive_response p s msg sid = some g) :
    (g.response_type = "greeting" ↔ Part0.isGreetingMessage msg = true)
    ∧ (Part0.isGreetingMessage msg = true → g.message = Part0.greetingBase) := by
  simp only [Part0.generate_comprehensive_response] at h
  cases hres : Part0.get_recommended_resources
      (Part0.analyze_mental_health_needs msg) with
  | none =>
    simp only [hres] at h
    exact Option.noConfusion h
  | some res =>
    simp only [hres] at h
    have hgm0 : Part0.isGreetingMessage msg
        = Part0.anyWord Part0.GREETING_WORDS (strTrim (strLower msg)) := rfl
    cases hg : Part0.anyWord Part0.GREETING_WORDS (strTrim (strLower msg)) with
    | true =>
      rw [if_pos hg] at h
      injection h with h2
      subst h2
      refine ⟨⟨fun _ => ?_, fun _ => rfl⟩, fun _ => rfl⟩
      rw [hgm0, hg]
    | false =>
      rw [if_neg (by simp [hg])] at h
      have hgm : Part0.isGreetingMessage msg = false := by rw [hgm0, hg]
      cases hh : Part0.anyWord Part0.HAPPY_WORDS (strTrim (strLower msg)) with
      | true =>
        rw [if_pos hh] at h
        injection h with h2
        subst h2
        refine ⟨⟨fun hx => absurd
          (show ("happy_support" : String) = "greeting" from hx) (by decide),
          fun hx => ?_⟩, fun hx => ?_⟩
        · rw [hgm] at hx; exact absurd hx (by decide)
        · rw [hgm] at hx; exact absurd hx (by decide)
      | false =>
        rw [if_neg (by simp [hh])] at h
        injection h with h2
        subst h2
        refine ⟨⟨fun hx => absurd hx (Part0.pickInner_ne_greeting _),
          fun hx => ?_⟩, fun hx => ?_⟩
        · rw [hgm] at hx; exact absurd hx (by decide)
        · rw [hgm] at hx; exact absurd hx (by decide)

/-- Witness for the amended C2 at the concrete message "hello". -/
theorem greeting_branch_substring_witness :
    helloResult.response_type = "greeting"
    ∧ helloResult.message = Part0.greetingBase :=
  ⟨(greeting_branch_substring 0 0 "hello" "sid" helloResult rfl).1.mpr
      (by decide),
   (greeting_branch_substring 0 0 "hello" "sid" helloResult rfl).2
      (by decide)⟩

/-- Counterexample to C2 as stated: the message "This is fine" contains
no greeting as an exact word, yet the greeting branch is taken because
"hi" is a substring of "this". -/
theorem greeting_exact_word_counterexample :
    (Part0.generate_comprehensive_response 0 0 "This is fine" "sid").map
      GenResult.response_type = some "greeting"
    ∧ specGreetingWord "This is fine" = false := by
  refine ⟨by decide, by decide⟩
